import Mathlib

/-!
Verification of the CAPES tier-classification core of the coleta_capes
repository: the two tier classifiers and the tier reconciler defined in
src/lib_aux.py, their textual copies in src/capes_metrics.py, and the
per-venue record construction performed by src/capes_metrics.py.

Python integers are modelled as Int, Python floats as Rat (every float
value is a rational number and IEEE comparison against the representable
thresholds 87.5, 75.0, ... agrees with exact rational comparison), Python
Optional as Option, and Python str as String.
-/

namespace LibAux

/-- Embeds calcular_estrato_conferencia from src/lib_aux.py (lines 78-105):
tier for a conference venue from its optional H5-index. -/
def calcular_estrato_conferencia (h5_index : Option Int) : String :=
  match h5_index with
  | none => "N/A"
  | some h5_index =>
      if h5_index ≥ 35 then "A1"
      else if h5_index ≥ 25 then "A2"
      else if h5_index ≥ 20 then "A3"
      else if h5_index ≥ 15 then "A4"
      else if h5_index ≥ 12 then "A5"
      else if h5_index ≥ 9 then "A6"
      else if h5_index ≥ 6 then "A7"
      else if h5_index > 0 then "A8"
      else "N/C"

/-- Embeds calcular_estrato_revista from src/lib_aux.py (lines 108-135):
tier for a journal venue from its optional CiteScore percentile. -/
def calcular_estrato_revista (percentil : Option ℚ) : String :=
  match percentil with
  | none => "N/A"
  | some percentil =>
      if percentil ≥ 87.5 then "A1"
      else if percentil ≥ 75.0 then "A2"
      else if percentil ≥ 62.5 then "A3"
      else if percentil ≥ 50.0 then "A4"
      else if percentil ≥ 37.5 then "A5"
      else if percentil ≥ 25.0 then "A6"
      else if percentil ≥ 12.5 then "A7"
      else "A8"

/-- Embeds the estrato_map dictionary lookup (with .get default 999) inside
calcular_estrato_final, src/lib_aux.py lines 166-185: a dict lookup on an
optional string key is a chain of equality tests; the keys "N/A", "N/C" and
None map to 999, and any key not in the dictionary takes the default 999. -/
def estrato_map (e : Option String) : Nat :=
  if e = some ("A1") then 1
  else if e = some ("A2") then 2
  else if e = some ("A3") then 3
  else if e = some ("A4") then 4
  else if e = some ("A5") then 5
  else if e = some ("A6") then 6
  else if e = some ("A7") then 7
  else if e = some ("A8") then 8
  else if e = some ("N/A") then 999
  else if e = some ("N/C") then 999
  else 999

/-- Embeds calcular_estrato_final from src/lib_aux.py (lines 138-195):
keep the inputs whose mapped value is below 999 and return the label of the
first pair with minimal mapped value (Python min keeps the earliest minimum).
The none branch of the last match is unreachable: a pair that passes the
filter has a mapped value below 999, hence a present label. -/
def calcular_estrato_final
    (estrato_h5 estrato_percentil estrato_jif : Option String) : String :=
  let valores : List (Option String × Nat) :=
    [(estrato_h5, estrato_map estrato_h5),
     (estrato_percentil, estrato_map estrato_percentil),
     (estrato_jif, estrato_map estrato_jif)]
  let valores_validos := valores.filter (fun ev => ev.2 < 999)
  match valores_validos with
  | [] => "N/A"
  | melhor :: resto =>
      let vencedor := resto.foldl (fun acc ev => if ev.2 < acc.2 then ev else acc) melhor
      match vencedor.1 with
      | some melhor_estrato => melhor_estrato
      | none => "N/A"

end LibAux

namespace CapesMetrics

/-- Embeds the copy of calcular_estrato_conferencia defined in
src/capes_metrics.py (lines 109-136); the Python text is identical to the
copy in src/lib_aux.py. -/
def calcular_estrato_conferencia (h5_index : Option Int) : String :=
  match h5_index with
  | none => "N/A"
  | some h5_index =>
      if h5_index ≥ 35 then "A1"
      else if h5_index ≥ 25 then "A2"
      else if h5_index ≥ 20 then "A3"
      else if h5_index ≥ 15 then "A4"
      else if h5_index ≥ 12 then "A5"
      else if h5_index ≥ 9 then "A6"
      else if h5_index ≥ 6 then "A7"
      else if h5_index > 0 then "A8"
      else "N/C"

/-- Embeds the copy of calcular_estrato_revista defined in
src/capes_metrics.py (lines 139-166); the Python text is identical to the
copy in src/lib_aux.py. -/
def calcular_estrato_revista (percentil : Option ℚ) : String :=
  match percentil with
  | none => "N/A"
  | some percentil =>
      if percentil ≥ 87.5 then "A1"
      else if percentil ≥ 75.0 then "A2"
      else if percentil ≥ 62.5 then "A3"
      else if percentil ≥ 50.0 then "A4"
      else if percentil ≥ 37.5 then "A5"
      else if percentil ≥ 25.0 then "A6"
      else if percentil ≥ 12.5 then "A7"
      else "A8"

/-- Embeds the estrato_map dictionary lookup of the calcular_estrato_final
copy in src/capes_metrics.py (lines 197-209, with .get default 999). -/
def estrato_map (e : Option String) : Nat :=
  if e = some ("A1") then 1
  else if e = some ("A2") then 2
  else if e = some ("A3") then 3
  else if e = some ("A4") then 4
  else if e = some ("A5") then 5
  else if e = some ("A6") then 6
  else if e = some ("A7") then 7
  else if e = some ("A8") then 8
  else if e = some ("N/A") then 999
  else if e = some ("N/C") then 999
  else 999

/-- Embeds the copy of calcular_estrato_final defined in
src/capes_metrics.py (lines 169-226); the Python text is identical to the
copy in src/lib_aux.py. -/
def calcular_estrato_final
    (estrato_h5 estrato_percentil estrato_jif : Option String) : String :=
  let valores : List (Option String × Nat) :=
    [(estrato_h5, estrato_map estrato_h5),
     (estrato_percentil, estrato_map estrato_percentil),
     (estrato_jif, estrato_map estrato_jif)]
  let valores_validos := valores.filter (fun ev => ev.2 < 999)
  match valores_validos with
  | [] => "N/A"
  | melhor :: resto =>
      let vencedor := resto.foldl (fun acc ev => if ev.2 < acc.2 then ev else acc) melhor
      match vencedor.1 with
      | some melhor_estrato => melhor_estrato
      | none => "N/A"

/-- Embeds the RevistaMetrics dataclass (src/lib_aux.py lines 48-70 and its
copy in src/capes_metrics.py lines 79-101): one mutable per-venue record. -/
structure RevistaMetrics where
  sigla : String
  nome_completo : String
  issn : Option String
  nome_gsm : Option String
  h5_index : Option Int
  h5_median : Option Int
  estrato_h5 : Option String
  citescore : Option ℚ
  percentil : Option ℚ
  area_tematica : Option String
  estrato_percentil : Option String
  jif : Option ℚ
  jif_percentil : Option ℚ
  categoria_wos : Option String
  estrato_jif : Option String
  estrato_final : Option String
  url_gsm : Option String
  url_scopus : Option String
  url_wos : Option String
  erro : Option String
  data_coleta : Option String
deriving DecidableEq

/-- The result tuple of GoogleScholarMetricsScraper.buscar_venue_gsm
(src/capes_metrics.py line 425): the retrieval layer is out of scope, so the
tuple is an opaque input here. -/
structure GsmResult where
  nome_gsm : Option String
  h5_index : Option Int
  h5_median : Option Int
  url_gsm : Option String
  erro : Option String
deriving DecidableEq

/-- The result tuple of WebOfScienceAPIClient.buscar_revista_wos
(src/capes_metrics.py lines 1047-1051), an opaque input. -/
structure WosResult where
  jif : Option ℚ
  jif_percentil : Option ℚ
  categoria_wos : Option String
  url_wos : Option String
  erro : Option String

/-- The result tuple of ScopusAPIClient.buscar_revista_scopus
(src/capes_metrics.py lines 1073-1077), an opaque input. -/
structure ScopusResult where
  citescore : Option ℚ
  percentil : Option ℚ
  area_tematica : Option String
  url_scopus : Option String
  erro : Option String

/-- Embeds the RevistaMetrics constructor call at src/capes_metrics.py
lines 417-422: only sigla, nome_completo, issn and data_coleta are supplied;
every other field starts at its dataclass default None. -/
def construir_revista (sigla nome_completo : String) (issn : Option String)
    (agora : String) : RevistaMetrics :=
  { sigla := sigla, nome_completo := nome_completo, issn := issn,
    nome_gsm := none, h5_index := none, h5_median := none, estrato_h5 := none,
    citescore := none, percentil := none, area_tematica := none,
    estrato_percentil := none, jif := none, jif_percentil := none,
    categoria_wos := none, estrato_jif := none, estrato_final := none,
    url_gsm := none, url_scopus := none, url_wos := none,
    erro := none, data_coleta := some agora }

/-- Embeds GoogleScholarMetricsScraper.buscar_revista (src/capes_metrics.py
lines 412-436) by explicit state passing: the record is constructed, then six
fields of the already-constructed record are assigned one by one (lines
429-434), and the record is returned. -/
def buscar_revista (sigla nome_completo : String) (issn : Option String)
    (agora : String) (g : GsmResult) : RevistaMetrics :=
  let resultado := construir_revista sigla nome_completo issn agora
  let resultado := { resultado with nome_gsm := g.nome_gsm }
  let resultado := { resultado with h5_index := g.h5_index }
  let resultado := { resultado with h5_median := g.h5_median }
  let resultado := { resultado with url_gsm := g.url_gsm }
  let resultado := { resultado with erro := g.erro }
  let resultado := { resultado with
    estrato_h5 := some (calcular_estrato_conferencia g.h5_index) }
  resultado

/-- Embeds the per-journal loop body of main (src/capes_metrics.py lines
1029-1101) by explicit state passing: buscar_revista produces the record,
then the WoS block (lines 1044-1061, run only when a WoS client is
configured), the Scopus block (lines 1070-1085, run only when a Scopus client
is configured) and the final-tier assignment (lines 1094-1099) each assign
further fields of the same record. -/
def processar_revista (sigla nome_completo : String) (issn : Option String)
    (agora : String) (g : GsmResult) (wos : Option WosResult)
    (scopus : Option ScopusResult) : RevistaMetrics :=
  let resultado := buscar_revista sigla nome_completo issn agora g
  let resultado :=
    match wos with
    | none => resultado
    | some w =>
        let resultado := { resultado with jif := w.jif }
        let resultado := { resultado with jif_percentil := w.jif_percentil }
        let resultado := { resultado with categoria_wos := w.categoria_wos }
        let resultado := { resultado with url_wos := w.url_wos }
        { resultado with
          estrato_jif :=
            match w.jif_percentil with
            | some p => some (calcular_estrato_revista (some p))
            | none => none }
  let resultado :=
    match scopus with
    | none => resultado
    | some s =>
        let resultado := { resultado with citescore := s.citescore }
        let resultado := { resultado with percentil := s.percentil }
        let resultado := { resultado with area_tematica := s.area_tematica }
        let resultado := { resultado with url_scopus := s.url_scopus }
        { resultado with
          estrato_percentil :=
            match s.percentil with
            | some p => some (calcular_estrato_revista (some p))
            | none => none }
  { resultado with
    estrato_final := some (calcular_estrato_final
      resultado.estrato_h5 resultado.estrato_percentil resultado.estrato_jif) }

end CapesMetrics

/-- The eight defined tier labels, best first. -/
def tierLabels : List String :=
  ["A1", "A2", "A3", "A4", "A5", "A6", "A7", "A8"]

/-- The ten label strings that the programs mention at all. -/
def knownLabels : List String :=
  ["A1", "A2", "A3", "A4", "A5", "A6", "A7", "A8", "N/A", "N/C"]

/-- An optional label is a defined tier when it is present and in A1..A8. -/
def isDefinedTier (t : Option String) : Bool :=
  match t with
  | some s => tierLabels.contains s
  | none => false

/-- The tier label whose rank (1 best .. 8 worst) is n, and the absent
marker for any other rank. -/
def rankToLabel (n : Nat) : String :=
  if n = 1 then "A1"
  else if n = 2 then "A2"
  else if n = 3 then "A3"
  else if n = 4 then "A4"
  else if n = 5 then "A5"
  else if n = 6 then "A6"
  else if n = 7 then "A7"
  else if n = 8 then "A8"
  else "N/A"

/-- The nine argument shapes that matter to calcular_estrato_final: absent,
or one of the eight defined tiers. -/
def opcoes : List (Option String) :=
  [none, some ("A1"), some ("A2"), some ("A3"), some ("A4"),
   some ("A5"), some ("A6"), some ("A7"), some ("A8")]

lemma estrato_map_none : LibAux.estrato_map none = 999 := rfl

/-- Every argument either maps to the sentinel 999 or is one of the nine
canonical shapes. -/
lemma estrato_map_999_or_mem (t : Option String) :
    LibAux.estrato_map t = 999 ∨ t ∈ opcoes := by
  unfold LibAux.estrato_map
  split_ifs <;> simp_all [opcoes]

/-- An argument whose mapped value is the sentinel 999 is dropped by the
filter, exactly as an absent argument is (first position). -/
lemma final_absorve_1 (a t2 t3 : Option String) (h : LibAux.estrato_map a = 999) :
    LibAux.calcular_estrato_final a t2 t3 = LibAux.calcular_estrato_final none t2 t3 := by
  unfold LibAux.calcular_estrato_final
  rw [h]
  rfl

/-- Sentinel absorption in the second position. -/
lemma final_absorve_2 (t1 b t3 : Option String) (h : LibAux.estrato_map b = 999) :
    LibAux.calcular_estrato_final t1 b t3 = LibAux.calcular_estrato_final t1 none t3 := by
  unfold LibAux.calcular_estrato_final
  rw [h]
  rfl

/-- Sentinel absorption in the third position. -/
lemma final_absorve_3 (t1 t2 c : Option String) (h : LibAux.estrato_map c = 999) :
    LibAux.calcular_estrato_final t1 t2 c = LibAux.calcular_estrato_final t1 t2 none := by
  unfold LibAux.calcular_estrato_final
  rw [h]
  rfl

/-- On the nine canonical shapes the reconciler agrees with taking the label
of the minimal mapped rank; checked by evaluation on all 729 triples. -/
lemma final_concreto : ∀ a ∈ opcoes, ∀ b ∈ opcoes, ∀ c ∈ opcoes,
    LibAux.calcular_estrato_final a b c =
      rankToLabel (min (min (LibAux.estrato_map a) (LibAux.estrato_map b))
        (LibAux.estrato_map c)) := by decide

/-- Every argument can be replaced by a canonical shape without changing the
mapped rank or any call to the reconciler. -/
lemma final_normaliza (t : Option String) :
    ∃ u, u ∈ opcoes ∧ LibAux.estrato_map u = LibAux.estrato_map t ∧
      (∀ b c, LibAux.calcular_estrato_final t b c = LibAux.calcular_estrato_final u b c) ∧
      (∀ a c, LibAux.calcular_estrato_final a t c = LibAux.calcular_estrato_final a u c) ∧
      (∀ a b, LibAux.calcular_estrato_final a b t = LibAux.calcular_estrato_final a b u) := by
  rcases estrato_map_999_or_mem t with h | h
  · refine ⟨none, by simp [opcoes], by rw [h, estrato_map_none], ?_, ?_, ?_⟩
    · exact fun b c => final_absorve_1 t b c h
    · exact fun a c => final_absorve_2 a t c h
    · exact fun a b => final_absorve_3 a b t h
  · exact ⟨t, h, rfl, fun b c => rfl, fun a c => rfl, fun a b => rfl⟩

/-- Characterization of calcular_estrato_final: it returns the label of the
best (smallest) mapped rank among its three arguments, or the absent marker
when every rank is the sentinel. -/
lemma final_caracteriza (t1 t2 t3 : Option String) :
    LibAux.calcular_estrato_final t1 t2 t3 =
      rankToLabel (min (min (LibAux.estrato_map t1) (LibAux.estrato_map t2))
        (LibAux.estrato_map t3)) := by
  obtain ⟨u1, hm1, he1, hl1, _, _⟩ := final_normaliza t1
  obtain ⟨u2, hm2, he2, _, hc2, _⟩ := final_normaliza t2
  obtain ⟨u3, hm3, he3, _, _, hr3⟩ := final_normaliza t3
  rw [hl1 t2 t3, hc2 u1 t3, hr3 u1 u2, ← he1, ← he2, ← he3]
  exact final_concreto u1 hm1 u2 hm2 u3 hm3

/-- The mapped rank never exceeds the sentinel. -/
lemma estrato_map_le (t : Option String) : LibAux.estrato_map t ≤ 999 := by
  unfold LibAux.estrato_map
  split_ifs <;> omega

/-- An optional label is a defined tier exactly when its mapped rank is
below the sentinel. -/
lemma isDefinedTier_iff (t : Option String) :
    isDefinedTier t = true ↔ LibAux.estrato_map t < 999 := by
  rcases t with _ | s
  · simp [isDefinedTier, LibAux.estrato_map]
  · unfold isDefinedTier LibAux.estrato_map tierLabels
    split_ifs <;> simp_all

/-- A label whose mapped rank is below the sentinel is the defined tier of
that rank. -/
lemma estrato_map_inv (t : Option String) (h : LibAux.estrato_map t < 999) :
    t = some (rankToLabel (LibAux.estrato_map t)) := by
  revert h
  unfold LibAux.estrato_map
  split_ifs <;> intro h <;> simp_all [rankToLabel]

/-- rankToLabel only produces the absent marker or a defined tier. -/
lemma rankToLabel_mem_known (n : Nat) : rankToLabel n ∈ knownLabels := by
  unfold rankToLabel knownLabels
  split_ifs <;> simp

/-- rankToLabel never produces the not-classified marker. -/
lemma rankToLabel_ne_nc (n : Nat) : rankToLabel n ≠ "N/C" := by
  unfold rankToLabel
  split_ifs <;> decide

/-- A string that is not one of the ten known labels maps to the sentinel. -/
lemma estrato_map_desconhecido (s : String) (h : s ∉ knownLabels) :
    LibAux.estrato_map (some s) = 999 := by
  rcases estrato_map_999_or_mem (some s) with hm | hm
  · exact hm
  · exfalso
    apply h
    simp only [opcoes, List.mem_cons, List.not_mem_nil, or_false] at hm
    rcases hm with h0 | h0 | h0 | h0 | h0 | h0 | h0 | h0 | h0
    · exact absurd h0 (by simp)
    all_goals rw [Option.some.inj h0]
    all_goals decide

/-- When no argument is a defined tier the reconciler returns the absent
marker. -/
lemma final_sem_definidos (t1 t2 t3 : Option String)
    (h1 : isDefinedTier t1 = false) (h2 : isDefinedTier t2 = false)
    (h3 : isDefinedTier t3 = false) :
    LibAux.calcular_estrato_final t1 t2 t3 = "N/A" := by
  have m1 : LibAux.estrato_map t1 = 999 := by
    have hle := estrato_map_le t1
    have hlt : ¬ LibAux.estrato_map t1 < 999 := by
      intro hl
      rw [(isDefinedTier_iff t1).mpr hl] at h1
      exact absurd h1 (by decide)
    omega
  have m2 : LibAux.estrato_map t2 = 999 := by
    have hle := estrato_map_le t2
    have hlt : ¬ LibAux.estrato_map t2 < 999 := by
      intro hl
      rw [(isDefinedTier_iff t2).mpr hl] at h2
      exact absurd h2 (by decide)
    omega
  have m3 : LibAux.estrato_map t3 = 999 := by
    have hle := estrato_map_le t3
    have hlt : ¬ LibAux.estrato_map t3 < 999 := by
      intro hl
      rw [(isDefinedTier_iff t3).mpr hl] at h3
      exact absurd h3 (by decide)
    omega
  rw [final_caracteriza, m1, m2, m3]
  decide

/-- C1: the index classifier maps an absent value to the not-applicable
marker and every integer value to the first matching band of the descending
ladder with inclusive lower bounds 35, 25, 20, 15, 12, 9, 6 and above 0,
with the not-classified marker for non-positive values; in particular
35 gives A1, 34 gives A2, 6 gives A7, 5 gives A8, 1 gives A8, 0 and -5 give
the not-classified marker. -/
theorem C1_escada_conferencia :
    LibAux.calcular_estrato_conferencia none = "N/A" ∧
    (∀ v : ℤ,
      (LibAux.calcular_estrato_conferencia (some v) = "A1" ↔ 35 ≤ v) ∧
      (LibAux.calcular_estrato_conferencia (some v) = "A2" ↔ 25 ≤ v ∧ v < 35) ∧
      (LibAux.calcular_estrato_conferencia (some v) = "A3" ↔ 20 ≤ v ∧ v < 25) ∧
      (LibAux.calcular_estrato_conferencia (some v) = "A4" ↔ 15 ≤ v ∧ v < 20) ∧
      (LibAux.calcular_estrato_conferencia (some v) = "A5" ↔ 12 ≤ v ∧ v < 15) ∧
      (LibAux.calcular_estrato_conferencia (some v) = "A6" ↔ 9 ≤ v ∧ v < 12) ∧
      (LibAux.calcular_estrato_conferencia (some v) = "A7" ↔ 6 ≤ v ∧ v < 9) ∧
      (LibAux.calcular_estrato_conferencia (some v) = "A8" ↔ 0 < v ∧ v < 6) ∧
      (LibAux.calcular_estrato_conferencia (some v) = "N/C" ↔ v ≤ 0)) ∧
    LibAux.calcular_estrato_conferencia (some 35) = "A1" ∧
    LibAux.calcular_estrato_conferencia (some 34) = "A2" ∧
    LibAux.calcular_estrato_conferencia (some 6) = "A7" ∧
    LibAux.calcular_estrato_conferencia (some 5) = "A8" ∧
    LibAux.calcular_estrato_conferencia (some 1) = "A8" ∧
    LibAux.calcular_estrato_conferencia (some 0) = "N/C" ∧
    LibAux.calcular_estrato_conferencia (some (-5)) = "N/C" := by
  refine ⟨rfl, fun v => ?_, by decide, by decide, by decide, by decide,
    by decide, by decide, by decide⟩
  simp only [LibAux.calcular_estrato_conferencia]
  split_ifs with h1 h2 h3 h4 h5 h6 h7 h8 <;>
    refine ⟨?_, ?_, ?_, ?_, ?_, ?_, ?_, ?_, ?_⟩ <;>
      first
        | exact iff_of_true rfl (by omega)
        | exact iff_of_false (by decide) (by omega)

/-- C2: the percentile classifier maps an absent value to the not-applicable
marker and every present rational value to the first matching band of the
descending ladder in uniform 12.5-point steps, with A8 for everything below
12.5 including negatives; a present value is never mapped to the
not-classified or not-applicable markers; in particular 87.5 gives A1, 87.4
gives A2, 0 gives A8, 12.5 gives A7 and 12.4 gives A8. -/
theorem C2_escada_revista :
    LibAux.calcular_estrato_revista none = "N/A" ∧
    (∀ v : ℚ,
      (LibAux.calcular_estrato_revista (some v) = "A1" ↔ 87.5 ≤ v) ∧
      (LibAux.calcular_estrato_revista (some v) = "A2" ↔ 75 ≤ v ∧ v < 87.5) ∧
      (LibAux.calcular_estrato_revista (some v) = "A3" ↔ 62.5 ≤ v ∧ v < 75) ∧
      (LibAux.calcular_estrato_revista (some v) = "A4" ↔ 50 ≤ v ∧ v < 62.5) ∧
      (LibAux.calcular_estrato_revista (some v) = "A5" ↔ 37.5 ≤ v ∧ v < 50) ∧
      (LibAux.calcular_estrato_revista (some v) = "A6" ↔ 25 ≤ v ∧ v < 37.5) ∧
      (LibAux.calcular_estrato_revista (some v) = "A7" ↔ 12.5 ≤ v ∧ v < 25) ∧
      (LibAux.calcular_estrato_revista (some v) = "A8" ↔ v < 12.5) ∧
      LibAux.calcular_estrato_revista (some v) ≠ "N/C" ∧
      LibAux.calcular_estrato_revista (some v) ≠ "N/A") ∧
    LibAux.calcular_estrato_revista (some 87.5) = "A1" ∧
    LibAux.calcular_estrato_revista (some 87.4) = "A2" ∧
    LibAux.calcular_estrato_revista (some 0) = "A8" ∧
    LibAux.calcular_estrato_revista (some 12.5) = "A7" ∧
    LibAux.calcular_estrato_revista (some 12.4) = "A8" := by
  refine ⟨rfl, fun v => ?_,
    by norm_num [LibAux.calcular_estrato_revista],
    by norm_num [LibAux.calcular_estrato_revista],
    by norm_num [LibAux.calcular_estrato_revista],
    by norm_num [LibAux.calcular_estrato_revista],
    by norm_num [LibAux.calcular_estrato_revista]⟩
  simp only [LibAux.calcular_estrato_revista]
  split_ifs with h1 h2 h3 h4 h5 h6 h7 <;>
    refine ⟨?_, ?_, ?_, ?_, ?_, ?_, ?_, ?_, ?_, ?_⟩ <;>
      first
        | exact iff_of_true rfl (by constructor <;> linarith)
        | exact iff_of_true rfl (by linarith)
        | exact iff_of_false (by decide) (by intro hc; obtain ⟨hx, hy⟩ := hc; linarith)
        | exact iff_of_false (by decide) (by intro hc; linarith)
        | decide

/-- rankToLabel is a section of the mapped rank on defined tiers. -/
lemma rank_round (t : Option String) (h : LibAux.estrato_map t < 999) :
    some (rankToLabel (LibAux.estrato_map t)) = t ∧
    isDefinedTier t = true ∧
    LibAux.estrato_map (some (rankToLabel (LibAux.estrato_map t))) =
      LibAux.estrato_map t := by
  have hinv := estrato_map_inv t h
  refine ⟨hinv.symm, (isDefinedTier_iff t).mpr h, ?_⟩
  rw [← hinv]

/-- rankToLabel only produces the absent marker or one of the eight tiers. -/
lemma rankToLabel_mem_na (n : Nat) : rankToLabel n ∈ "N/A" :: tierLabels := by
  unfold rankToLabel
  split_ifs <;> decide

/-- C3: the reconciler filters its three optional labels to those in A1..A8,
returns the not-applicable marker when that subset is empty, and otherwise
returns a defined tier that occurs among the inputs and whose rank is at
least as good as the rank of every defined input; in particular on the four
listed triples. -/
theorem C3_reconciliacao :
    (∀ t1 t2 t3 : Option String,
      ((isDefinedTier t1 = false ∧ isDefinedTier t2 = false ∧
          isDefinedTier t3 = false) →
        LibAux.calcular_estrato_final t1 t2 t3 = "N/A") ∧
      (∀ t, t ∈ [t1, t2, t3] → isDefinedTier t = true →
        some (LibAux.calcular_estrato_final t1 t2 t3) ∈ [t1, t2, t3] ∧
        isDefinedTier (some (LibAux.calcular_estrato_final t1 t2 t3)) = true ∧
        LibAux.estrato_map (some (LibAux.calcular_estrato_final t1 t2 t3)) ≤
          LibAux.estrato_map t)) ∧
    LibAux.calcular_estrato_final (some ("A2")) (some ("A1")) (some ("A3")) = "A1" ∧
    LibAux.calcular_estrato_final (some ("A5")) none none = "A5" ∧
    LibAux.calcular_estrato_final none none none = "N/A" ∧
    LibAux.calcular_estrato_final (some ("N/C")) (some ("A7")) (some ("N/A")) = "A7" := by
  refine ⟨fun t1 t2 t3 =>
    ⟨fun h => final_sem_definidos t1 t2 t3 h.1 h.2.1 h.2.2, ?_⟩,
    by decide, by decide, by decide, by decide⟩
  intro t ht hdef
  have hlt : LibAux.estrato_map t < 999 := (isDefinedTier_iff t).mp hdef
  have hM : min (min (LibAux.estrato_map t1) (LibAux.estrato_map t2))
      (LibAux.estrato_map t3) ≤ LibAux.estrato_map t := by
    simp only [List.mem_cons, List.not_mem_nil, or_false] at ht
    rcases ht with rfl | rfl | rfl <;> omega
  have hcases : min (min (LibAux.estrato_map t1) (LibAux.estrato_map t2))
        (LibAux.estrato_map t3) = LibAux.estrato_map t1 ∨
      min (min (LibAux.estrato_map t1) (LibAux.estrato_map t2))
        (LibAux.estrato_map t3) = LibAux.estrato_map t2 ∨
      min (min (LibAux.estrato_map t1) (LibAux.estrato_map t2))
        (LibAux.estrato_map t3) = LibAux.estrato_map t3 := by omega
  rw [final_caracteriza]
  rcases hcases with hj | hj | hj <;> rw [hj]
  · obtain ⟨hs, hd, hm⟩ := rank_round t1 (by omega)
    refine ⟨?_, ?_, ?_⟩
    · rw [hs]; simp
    · rw [hs]; exact hd
    · rw [hm]; omega
  · obtain ⟨hs, hd, hm⟩ := rank_round t2 (by omega)
    refine ⟨?_, ?_, ?_⟩
    · rw [hs]; simp
    · rw [hs]; exact hd
    · rw [hm]; omega
  · obtain ⟨hs, hd, hm⟩ := rank_round t3 (by omega)
    refine ⟨?_, ?_, ?_⟩
    · rw [hs]; simp
    · rw [hs]; exact hd
    · rw [hm]; omega

/-- C3 witness: the reconciler applied to the triple A2, A1, A3 returns a
member of the triple that is a defined tier at least as good as A1, and the
all-absent triple returns the not-applicable marker. -/
theorem C3_reconciliacao_witness :
    some (LibAux.calcular_estrato_final (some ("A2")) (some ("A1")) (some ("A3"))) ∈
      [some ("A2"), some ("A1"), some ("A3")] ∧
    isDefinedTier (some (LibAux.calcular_estrato_final (some ("A2"))
      (some ("A1")) (some ("A3")))) = true ∧
    LibAux.estrato_map (some (LibAux.calcular_estrato_final (some ("A2"))
      (some ("A1")) (some ("A3")))) ≤ LibAux.estrato_map (some ("A1")) ∧
    LibAux.calcular_estrato_final none none none = "N/A" := by
  have h := C3_reconciliacao
  have h2 := (h.1 (some ("A2")) (some ("A1")) (some ("A3"))).2 (some ("A1"))
    (by decide) (by decide)
  exact ⟨h2.1, h2.2.1, h2.2.2, (h.1 none none none).1 ⟨by decide, by decide, by decide⟩⟩

/-- C4: the reconciled result is never the not-classified marker; a present
not-classified input acts exactly like an absent input in every position;
and whenever no input is a defined tier (including when inputs are the
present sentinels) the result is exactly the not-applicable marker. -/
theorem C4_nunca_nc : ∀ t1 t2 t3 : Option String,
    LibAux.calcular_estrato_final t1 t2 t3 ≠ "N/C" ∧
    LibAux.calcular_estrato_final (some ("N/C")) t2 t3 =
      LibAux.calcular_estrato_final none t2 t3 ∧
    LibAux.calcular_estrato_final t1 (some ("N/C")) t3 =
      LibAux.calcular_estrato_final t1 none t3 ∧
    LibAux.calcular_estrato_final t1 t2 (some ("N/C")) =
      LibAux.calcular_estrato_final t1 t2 none ∧
    ((isDefinedTier t1 = false ∧ isDefinedTier t2 = false ∧
        isDefinedTier t3 = false) →
      LibAux.calcular_estrato_final t1 t2 t3 = "N/A") := by
  intro t1 t2 t3
  refine ⟨?_, ?_, ?_, ?_,
    fun h => final_sem_definidos t1 t2 t3 h.1 h.2.1 h.2.2⟩
  · rw [final_caracteriza]; exact rankToLabel_ne_nc _
  · exact final_absorve_1 _ t2 t3 (by decide)
  · exact final_absorve_2 t1 _ t3 (by decide)
  · exact final_absorve_3 t1 t2 _ (by decide)

/-- C4 witness: with a present not-classified input, a present not-applicable
input and an absent input the reconciler avoids the not-classified marker and
returns the not-applicable marker. -/
theorem C4_nunca_nc_witness :
    LibAux.calcular_estrato_final (some ("N/C")) (some ("N/A")) none ≠ "N/C" ∧
    LibAux.calcular_estrato_final (some ("N/C")) (some ("N/A")) none = "N/A" := by
  have h := C4_nunca_nc (some ("N/C")) (some ("N/A")) none
  exact ⟨h.1, h.2.2.2.2 ⟨by decide, by decide, by decide⟩⟩

/-- C5: the reconciler is invariant under every permutation of its three
arguments. -/
theorem C5_permutacao : ∀ t1 t2 t3 : Option String,
    LibAux.calcular_estrato_final t1 t2 t3 =
      LibAux.calcular_estrato_final t1 t3 t2 ∧
    LibAux.calcular_estrato_final t1 t2 t3 =
      LibAux.calcular_estrato_final t2 t1 t3 ∧
    LibAux.calcular_estrato_final t1 t2 t3 =
      LibAux.calcular_estrato_final t2 t3 t1 ∧
    LibAux.calcular_estrato_final t1 t2 t3 =
      LibAux.calcular_estrato_final t3 t1 t2 ∧
    LibAux.calcular_estrato_final t1 t2 t3 =
      LibAux.calcular_estrato_final t3 t2 t1 := by
  intro t1 t2 t3
  refine ⟨?_, ?_, ?_, ?_, ?_⟩ <;>
    (rw [final_caracteriza, final_caracteriza]; congr 1; omega)

/-- C7: each of the three core operations is a total function that always
returns a well-formed label: the index classifier one of the ten known
labels, and the percentile classifier and the reconciler either the absent
marker or a defined tier. -/
theorem C7_totalidade :
    (∀ h5 : Option ℤ, LibAux.calcular_estrato_conferencia h5 ∈ knownLabels) ∧
    (∀ p : Option ℚ, LibAux.calcular_estrato_revista p ∈ "N/A" :: tierLabels) ∧
    (∀ t1 t2 t3 : Option String,
      LibAux.calcular_estrato_final t1 t2 t3 ∈ "N/A" :: tierLabels) := by
  refine ⟨?_, ?_, ?_⟩
  · intro h5
    rcases h5 with _ | v
    · decide
    · simp only [LibAux.calcular_estrato_conferencia]
      split_ifs <;> decide
  · intro p
    rcases p with _ | v
    · decide
    · simp only [LibAux.calcular_estrato_revista]
      split_ifs <;> decide
  · intro t1 t2 t3
    rw [final_caracteriza]
    exact rankToLabel_mem_na _

set_option maxHeartbeats 1600000 in
/-- C6: both classifiers are monotone under the tier order with A1 best and
A8 worst (smaller mapped rank is better): a larger percentile never gets a
worse tier, and a larger strictly positive index never gets a worse tier. -/
theorem C6_monotonia :
    (∀ v1 v2 : ℚ, v2 ≤ v1 →
      LibAux.estrato_map (some (LibAux.calcular_estrato_revista (some v1))) ≤
        LibAux.estrato_map (some (LibAux.calcular_estrato_revista (some v2)))) ∧
    (∀ v1 v2 : ℤ, v2 ≤ v1 → 0 < v1 → 0 < v2 →
      LibAux.estrato_map (some (LibAux.calcular_estrato_conferencia (some v1))) ≤
        LibAux.estrato_map (some (LibAux.calcular_estrato_conferencia (some v2)))) := by
  constructor
  · intro v1 v2 h
    simp only [LibAux.calcular_estrato_revista]
    split_ifs <;> first | decide | (exfalso; linarith)
  · intro v1 v2 h h1 h2
    simp only [LibAux.calcular_estrato_conferencia]
    split_ifs <;> first | decide | (exfalso; omega)

/-- C6 witness: the percentile 80 is classified at least as well as 30, and
the index 30 at least as well as 10. -/
theorem C6_monotonia_witness :
    LibAux.estrato_map (some (LibAux.calcular_estrato_revista (some 80))) ≤
      LibAux.estrato_map (some (LibAux.calcular_estrato_revista (some 30))) ∧
    LibAux.estrato_map (some (LibAux.calcular_estrato_conferencia (some 30))) ≤
      LibAux.estrato_map (some (LibAux.calcular_estrato_conferencia (some 10))) :=
  ⟨C6_monotonia.1 80 30 (by norm_num),
   C6_monotonia.2 30 10 (by norm_num) (by norm_num) (by norm_num)⟩

/-- C8 counterexample: the per-venue record is mutated after construction.
The record that buscar_revista constructs has estrato_h5 None at
construction time, yet the record the very same call hands back carries
estrato_h5 A1, because lines 429-434 of src/capes_metrics.py assign six
fields of the already-constructed record; so the record returned differs
from the record as constructed. -/
theorem C8_mutacao_contraexemplo :
    (CapesMetrics.construir_revista ("TSE") ("IEEE TSE") none
      ("2026-01-26")).estrato_h5 = none ∧
    (CapesMetrics.buscar_revista ("TSE") ("IEEE TSE") none ("2026-01-26")
      ⟨some ("IEEE TSE"), some 40, some 60, some ("url"), none⟩).estrato_h5 =
        some ("A1") ∧
    CapesMetrics.buscar_revista ("TSE") ("IEEE TSE") none ("2026-01-26")
        ⟨some ("IEEE TSE"), some 40, some 60, some ("url"), none⟩ ≠
      CapesMetrics.construir_revista ("TSE") ("IEEE TSE") none ("2026-01-26") := by
  refine ⟨by decide, by decide, by decide⟩

/-- C8 amended: although the record is assigned to after construction, every
field is written at most once per run and nothing later overwrites it: for
every venue and every retrieval outcome, the record that the per-journal run
ends with keeps its construction-time identity fields unchanged, carries the
Google Scholar fields exactly as retrieved, carries the WoS and Scopus
fields exactly as retrieved when the corresponding client ran and untouched
defaults otherwise, and holds the classifier outputs in all four tier
fields (estrato_h5, estrato_jif, estrato_percentil and estrato_final); all
twenty-one fields are fixed, so the completed record is a pure function of
the inputs. -/
theorem C8_registro_final : ∀ (sigla nome_completo : String)
    (issn : Option String) (agora : String) (g : CapesMetrics.GsmResult)
    (wos : Option CapesMetrics.WosResult)
    (scopus : Option CapesMetrics.ScopusResult),
    let r := CapesMetrics.processar_revista sigla nome_completo issn agora g
      wos scopus
    r.sigla = sigla ∧
    r.nome_completo = nome_completo ∧
    r.issn = issn ∧
    r.data_coleta = some agora ∧
    r.nome_gsm = g.nome_gsm ∧
    r.h5_index = g.h5_index ∧
    r.h5_median = g.h5_median ∧
    r.url_gsm = g.url_gsm ∧
    r.erro = g.erro ∧
    r.estrato_h5 = some (CapesMetrics.calcular_estrato_conferencia g.h5_index) ∧
    r.jif = (match wos with
      | none => none
      | some w => w.jif) ∧
    r.jif_percentil = (match wos with
      | none => none
      | some w => w.jif_percentil) ∧
    r.categoria_wos = (match wos with
      | none => none
      | some w => w.categoria_wos) ∧
    r.url_wos = (match wos with
      | none => none
      | some w => w.url_wos) ∧
    r.estrato_jif = (match wos with
      | none => none
      | some w =>
          match w.jif_percentil with
          | some p => some (CapesMetrics.calcular_estrato_revista (some p))
          | none => none) ∧
    r.citescore = (match scopus with
      | none => none
      | some s => s.citescore) ∧
    r.percentil = (match scopus with
      | none => none
      | some s => s.percentil) ∧
    r.area_tematica = (match scopus with
      | none => none
      | some s => s.area_tematica) ∧
    r.url_scopus = (match scopus with
      | none => none
      | some s => s.url_scopus) ∧
    r.estrato_percentil = (match scopus with
      | none => none
      | some s =>
          match s.percentil with
          | some p => some (CapesMetrics.calcular_estrato_revista (some p))
          | none => none) ∧
    r.estrato_final = some (CapesMetrics.calcular_estrato_final
      r.estrato_h5 r.estrato_percentil r.estrato_jif) := by
  intro sigla nome_completo issn agora g wos scopus
  rcases wos with _ | w <;> rcases scopus with _ | s <;>
    exact ⟨rfl, rfl, rfl, rfl, rfl, rfl, rfl, rfl, rfl, rfl, rfl, rfl, rfl,
      rfl, rfl, rfl, rfl, rfl, rfl, rfl, rfl⟩

/-- C9: a string argument that is not one of the ten known labels is treated
by the reconciler exactly like an absent argument in every position, is never
returned as the result, and a triple without any defined tier yields the
not-applicable marker. -/
theorem C9_rotulos_desconhecidos : ∀ s : String, s ∉ knownLabels →
    (∀ t2 t3 : Option String,
      LibAux.calcular_estrato_final (some s) t2 t3 =
        LibAux.calcular_estrato_final none t2 t3 ∧
      LibAux.calcular_estrato_final t2 (some s) t3 =
        LibAux.calcular_estrato_final t2 none t3 ∧
      LibAux.calcular_estrato_final t2 t3 (some s) =
        LibAux.calcular_estrato_final t2 t3 none ∧
      LibAux.calcular_estrato_final (some s) t2 t3 ≠ s ∧
      LibAux.calcular_estrato_final t2 (some s) t3 ≠ s ∧
      LibAux.calcular_estrato_final t2 t3 (some s) ≠ s) ∧
    (∀ t1 t2 t3 : Option String,
      isDefinedTier t1 = false → isDefinedTier t2 = false →
      isDefinedTier t3 = false →
      LibAux.calcular_estrato_final t1 t2 t3 = "N/A") := by
  intro s hs
  have hm : LibAux.estrato_map (some s) = 999 := estrato_map_desconhecido s hs
  have hne : ∀ t1 t2 t3 : Option String,
      LibAux.calcular_estrato_final t1 t2 t3 ≠ s := by
    intro t1 t2 t3 hcontra
    apply hs
    rw [← hcontra, final_caracteriza]
    exact rankToLabel_mem_known _
  refine ⟨fun t2 t3 => ⟨final_absorve_1 _ t2 t3 hm, final_absorve_2 t2 _ t3 hm,
    final_absorve_3 t2 t3 _ hm, hne _ t2 t3, hne t2 _ t3, hne t2 t3 _⟩,
    fun t1 t2 t3 h1 h2 h3 => final_sem_definidos t1 t2 t3 h1 h2 h3⟩

/-- C9 witness: the unknown label B1 acts like an absent input, is never the
result, and together with the unknown empty label and an absent input yields
the not-applicable marker. -/
theorem C9_rotulos_desconhecidos_witness :
    LibAux.calcular_estrato_final (some ("B1")) (some ("A3")) none =
      LibAux.calcular_estrato_final none (some ("A3")) none ∧
    LibAux.calcular_estrato_final (some ("B1")) (some ("A3")) none ≠ "B1" ∧
    LibAux.calcular_estrato_final (some ("B1")) (some ("")) none = "N/A" := by
  have h := C9_rotulos_desconhecidos ("B1") (by decide)
  exact ⟨(h.1 (some ("A3")) none).1, (h.1 (some ("A3")) none).2.2.2.1,
    h.2 (some ("B1")) (some ("")) none (by decide) (by decide) (by decide)⟩

/-- C10: the copies of the three core functions defined inside
src/capes_metrics.py agree extensionally with the same-named functions of
src/lib_aux.py on every input; the Python texts are identical and the
embeddings are definitionally equal. -/
theorem C10_copias_extensionais :
    (∀ h5 : Option ℤ, CapesMetrics.calcular_estrato_conferencia h5 =
      LibAux.calcular_estrato_conferencia h5) ∧
    (∀ p : Option ℚ, CapesMetrics.calcular_estrato_revista p =
      LibAux.calcular_estrato_revista p) ∧
    (∀ t1 t2 t3 : Option String, CapesMetrics.calcular_estrato_final t1 t2 t3 =
      LibAux.calcular_estrato_final t1 t2 t3) :=
  ⟨fun _ => rfl, fun _ => rfl, fun _ _ _ => rfl⟩
